import Mathlib

/-!
# Verification of the dividends_api multi-source retrieval orchestrator

Shallow embedding of the Python sources of `dividends_api`:
  * `app/models/dividend.py`   — the pydantic data model,
  * `app/cache/cache_manager.py` — `CacheManager` over a `cachetools.TTLCache`,
  * `app/scrapers/scraper_manager.py` — `ScraperManager` (sequential and
    concurrent fallback phases, health stats, batch retrieval),
  * `app/api/routes.py` — source-list validation of `GET /dividend/{symbol}`.

Modelling conventions:
  * `datetime.utcnow()` / wall-clock instants are natural numbers (seconds);
    every operation that reads the clock takes the current instant `now`
    explicitly.
  * Python `float` amounts are carried opaquely as `Option Int`; no verified
    property computes with them.
  * The `cachetools.TTLCache` is an association list of entries, each carrying
    the eviction deadline the library records at write time
    (`write instant + the cache-wide ttl fixed at construction`).  Capacity
    eviction (maxsize 1000) is not modelled: no verified property fills the
    cache, and the key just written is never the one evicted.
  * Instance attributes of the Python classes become explicit parameters
    (the scraper dictionary, the stats dictionary, the cache state).
  * A scraper's `scrape_dividend_data` coroutine is a `Behavior`: for a
    symbol it yields the time the await takes and its outcome (a returned
    value, possibly `None`, or a raised exception of one of the classes of
    `base_scraper.py`).
  * Python's `list(set(xs))` is modelled as first-occurrence deduplication;
    verified properties use only membership in the resulting list.
-/

set_option autoImplicit false

namespace DividendsApi

/-- `app/models/dividend.py` — `DividendData`.  Dates and the capture
timestamp are instants (`Nat`), monetary amounts are opaque. -/
structure DividendData where
  symbol : String
  company_name : Option String := none
  ex_date : Option Nat := none
  record_date : Option Nat := none
  pay_date : Option Nat := none
  announcement_date : Option Nat := none
  amount : Option Int := none
  currency : String := "USD"
  dividend_type : Option String := none
  frequency : Option String := none
  yield_percentage : Option Int := none
  source : String
  scraped_at : Nat := 0
deriving Repr, DecidableEq

/-- `app/models/dividend.py` — `DividendCalendarResponse` (also the shape of
its `model_dump()` dictionary, which the cache stores). -/
structure DividendCalendarResponse where
  symbol : String
  dividends : List DividendData := []
  total_count : Nat := 0
  cached : Bool := false
  cache_expires_at : Option Nat := none
  sources_attempted : List String := []
  successful_source : Option String := none
deriving Repr, DecidableEq

/-- Python `str.upper()` (the repository's symbols and keys are ASCII). -/
def pyUpper (s : String) : String := ⟨s.data.map Char.toUpper⟩

/-- Python `str.strip()`: drop leading and trailing whitespace. -/
def pyStrip (s : String) : String :=
  ⟨((s.data.dropWhile Char.isWhitespace).reverse.dropWhile
      Char.isWhitespace).reverse⟩

/-! ## Cache (`app/cache/cache_manager.py`) -/

/-- One slot of the underlying `TTLCache`: the key, the stored
`model_dump()` dictionary, and the eviction deadline the library recorded
when the slot was written (`write instant + default_ttl`). -/
structure CacheSlot where
  key : String
  value : DividendCalendarResponse
  expireAt : Nat
deriving Repr, DecidableEq

/-- State of a `CacheManager` instance: the `TTLCache` contents plus the
constructor arguments `max_size` and `default_ttl`. -/
structure CacheState where
  entries : List CacheSlot := []
  max_size : Nat := 1000
  default_ttl : Nat := 3600
deriving Repr, DecidableEq

/-- The global `cache_manager = CacheManager(max_size=1000, default_ttl=3600)`
with nothing stored yet. -/
def emptyCacheState : CacheState := {}

/-- `CacheManager._generate_cache_key`: `"dividend:SYMBOL"` or
`"dividend:SYMBOL:source"`, upper-casing the symbol (no trimming). -/
def generateCacheKey (symbol : String) (source : Option String) : String :=
  match source with
  | some src => "dividend:" ++ pyUpper symbol ++ ":" ++ src
  | none => "dividend:" ++ pyUpper symbol

/-- `TTLCache` lookup: the stored dictionary, provided the slot exists and its
eviction deadline has not passed. -/
def lookupLive (c : CacheState) (now : Nat) (key : String) :
    Option DividendCalendarResponse :=
  match c.entries.find? (fun e => e.key == key) with
  | some e => if now < e.expireAt then some e.value else none
  | none => none

/-- Overwrite the stored dictionary of the slot holding `key`, keeping the
slot's eviction deadline (the Python code mutates the dict object in place,
which leaves the `TTLCache` link untouched). -/
def replaceSlotValue (entries : List CacheSlot) (key : String)
    (v : DividendCalendarResponse) : List CacheSlot :=
  entries.map (fun e => if e.key = key then { e with value := v } else e)

/-- The rewrite a cache hit applies to the stored dictionary:
`cached_data["cached"] = True` and
`cached_data["cache_expires_at"] = utcnow() + default_ttl`. -/
def hitRewrite (v : DividendCalendarResponse) (now ttl : Nat) :
    DividendCalendarResponse :=
  { v with cached := true, cache_expires_at := some (now + ttl) }

/-- `CacheManager.get(symbol, source)`.  On a hit the code applies
`hitRewrite` to the stored dictionary ITSELF (in-place mutation of the dict
object held by the `TTLCache`), then returns
`DividendCalendarResponse(**cached_data)` built from the mutated dict.
Returns the successor cache state and the optional response. -/
def cacheGet (c : CacheState) (now : Nat) (symbol : String)
    (source : Option String) :
    CacheState × Option DividendCalendarResponse :=
  let key := generateCacheKey symbol source
  match lookupLive c now key with
  | some stored =>
      let stored' := hitRewrite stored now c.default_ttl
      ({ c with entries := replaceSlotValue c.entries key stored' },
       some stored')
  | none => (c, none)

/-- `CacheManager.set(symbol, data, source, ttl)`.  `cache_ttl` is
`ttl or self.default_ttl` (a `ttl` of `0` is falsy and also falls back to the
default).  Both branches of the custom-TTL conditional execute the same
`self._cache[cache_key] = cache_data`, so the `TTLCache` always records the
eviction deadline `now + default_ttl`; `cache_ttl` only feeds the
`cache_expires_at` display field of the stored dictionary. -/
def cacheSet (c : CacheState) (now : Nat) (symbol : String)
    (data : DividendCalendarResponse) (source : Option String)
    (ttl : Option Nat) : CacheState × Bool :=
  let key := generateCacheKey symbol source
  let cacheTtl := match ttl with
    | some t => if t = 0 then c.default_ttl else t
    | none => c.default_ttl
  let cacheData := { data with cache_expires_at := some (now + cacheTtl) }
  ({ c with entries :=
      ⟨key, cacheData, now + c.default_ttl⟩ ::
        c.entries.filter (fun e => e.key ≠ key) },
   true)

/-- `CacheManager.invalidate(symbol, source)`: `if cache_key in self._cache`
(the `TTLCache` membership test also rejects expired slots) then delete. -/
def cacheInvalidate (c : CacheState) (now : Nat) (symbol : String)
    (source : Option String) : CacheState × Bool :=
  let key := generateCacheKey symbol source
  match lookupLive c now key with
  | some _ =>
      ({ c with entries := c.entries.filter (fun e => e.key ≠ key) }, true)
  | none => (c, false)

/-- `CacheManager.clear_all()`: drop everything, return the removed count. -/
def cacheClearAll (c : CacheState) : CacheState × Nat :=
  ({ c with entries := [] }, c.entries.length)

/-! ## Scrapers (`app/scrapers/base_scraper.py`, `scraper_manager.py`) -/

/-- Outcome of awaiting `scraper.scrape_dividend_data(symbol)`: a returned
value (`ok`, possibly `None`), or an exception — `RateLimitError`,
any other `ScraperError`, or an unexpected `Exception`
(the three `except` arms of `_try_sequential_scraping`). -/
inductive ScrapeOutcome where
  | ok (result : Option DividendCalendarResponse)
  | rateLimitError (msg : String)
  | scraperError (msg : String)
  | otherError (msg : String)
deriving Repr, DecidableEq

/-- A scraper's `scrape_dividend_data` coroutine, abstracted: for a symbol,
the time the await takes to settle and the outcome it settles with. -/
abbrev Behavior : Type := String → Nat × ScrapeOutcome

/-- The `self.scrapers` dictionary: scraper name → coroutine behavior. -/
abbrev Scrapers : Type := List (String × Behavior)

/-- Dictionary lookup `self.scrapers[name]` / `name in self.scrapers`. -/
def lookupScraper (scrapers : Scrapers) (name : String) : Option Behavior :=
  (scrapers.find? (fun p => p.1 == name)).map (fun p => p.2)

/-- One value of `self.scraper_stats[name]`: the counters of
`_update_scraper_stats` (`last_error_message` is absent until the first
error that carries a non-empty message). -/
structure ScraperStats where
  success_count : Nat := 0
  error_count : Nat := 0
  last_success : Option Nat := none
  last_error : Option Nat := none
  last_error_message : Option String := none
deriving Repr, DecidableEq

/-- The `self.scraper_stats` dictionary. -/
abbrev StatsMap : Type := List (String × ScraperStats)

/-- The lazily initialised stats of `ScraperManager.scraper_stats`. -/
def defaultScraperStats : StatsMap :=
  [("yahoo", {}), ("marketwatch", {})]

/-- `self.scraper_stats[name]` as an optional value. -/
def lookupStats (stats : StatsMap) (name : String) : Option ScraperStats :=
  (stats.find? (fun p => p.1 == name)).map (fun p => p.2)

/-- `ScraperManager._update_scraper_stats(source_name, success, error)`:
returns unchanged when the name is not a key; otherwise bumps the matching
counters and timestamps (`if error:` — an empty message is falsy and leaves
`last_error_message` alone). -/
def updateScraperStats (stats : StatsMap) (sourceName : String)
    (success : Bool) (error : Option String) (now : Nat) : StatsMap :=
  stats.map (fun p =>
    if p.1 = sourceName then
      (p.1,
       if success then
         { p.2 with
           success_count := p.2.success_count + 1
           last_success := some now }
       else
         { p.2 with
           error_count := p.2.error_count + 1
           last_error := some now
           last_error_message :=
             match error with
             | some e => if e = "" then p.2.last_error_message else some e
             | none => p.2.last_error_message })
    else p)

/-- `ScraperManager._try_sequential_scraping(symbol, sources,
sources_attempted)`.  Walks `sources` in order; unknown names are skipped
(`continue`); a known scraper is appended to `sources_attempted` and
awaited.  A result with `total_count > 0` wins: its `successful_source` is
set and a success is recorded.  A `None` result or a zero-count result is
neutral (no stats change).  Each exception records an error;
`RateLimitError` additionally sleeps 2 seconds (`await asyncio.sleep(2)`)
before the next source.  Awaiting a scraper advances the clock by the
behavior's duration.  Returns the optional winning response, the final
`sources_attempted`, the final stats, and the instant after the loop. -/
def trySequentialScraping (scrapers : Scrapers) (symbol : String) :
    List String → List String → StatsMap → Nat →
    Option DividendCalendarResponse × List String × StatsMap × Nat
  | [], attempted, stats, now => (none, attempted, stats, now)
  | src :: rest, attempted, stats, now =>
    match lookupScraper scrapers src with
    | none => trySequentialScraping scrapers symbol rest attempted stats now
    | some behavior =>
      let attempted' := attempted ++ [src]
      let now' := now + (behavior symbol).1
      match (behavior symbol).2 with
      | .ok (some r) =>
          if r.total_count > 0 then
            (some { r with successful_source := some src }, attempted',
             updateScraperStats stats src true none now', now')
          else
            trySequentialScraping scrapers symbol rest attempted' stats now'
      | .ok none =>
          trySequentialScraping scrapers symbol rest attempted' stats now'
      | .rateLimitError e =>
          trySequentialScraping scrapers symbol rest attempted'
            (updateScraperStats stats src false (some e) now') (now' + 2)
      | .scraperError e =>
          trySequentialScraping scrapers symbol rest attempted'
            (updateScraperStats stats src false (some e) now') now'
      | .otherError e =>
          trySequentialScraping scrapers symbol rest attempted'
            (updateScraperStats stats src false (some e) now') now'

/-- `ScraperManager._scrape_with_timeout(scraper, symbol, source_name,
timeout=15)`: the task settles when the scrape does, unless the per-attempt
timeout fires first, in which case it settles at the timeout with a raised
`ScraperError("Timeout scraping …")`. -/
def scrapeWithTimeout (behavior : Behavior) (symbol : String)
    (sourceName : String) (timeout : Nat := 15) : Nat × ScrapeOutcome :=
  let (dur, out) := behavior symbol
  if dur ≤ timeout then (dur, out)
  else (timeout, .scraperError ("Timeout scraping " ++ sourceName))

/-- A concurrent task as `_try_concurrent_scraping` launches it:
source name, settle time, outcome. -/
abbrev ConcurrentTask : Type := String × Nat × ScrapeOutcome

/-- Earliest settle time among the launched tasks (the instant
`asyncio.wait(..., return_when=FIRST_COMPLETED)` returns, when it is within
the phase timeout). -/
def minCompletionTime (tasks : List ConcurrentTask) : Nat :=
  match tasks.map (fun t => t.2.1) with
  | [] => 0
  | t :: ts => ts.foldl min t

/-- The `for source_name, task in tasks: if task in done:` loop of
`_try_concurrent_scraping`: scan the tasks in launch order; a task in `done`
that returned a result with `total_count > 0` wins (marked, success
recorded); a `done` task that raised records an error; everything else is
skipped.  `done` holds the tasks settling at `doneTime`. -/
def scanCompletedTasks (doneTime : Nat) (stats : StatsMap) (now : Nat) :
    List ConcurrentTask → Option DividendCalendarResponse × StatsMap
  | [] => (none, stats)
  | (src, time, out) :: rest =>
    if time = doneTime then
      match out with
      | .ok (some r) =>
          if r.total_count > 0 then
            (some { r with successful_source := some src },
             updateScraperStats stats src true none now)
          else scanCompletedTasks doneTime stats now rest
      | .ok none => scanCompletedTasks doneTime stats now rest
      | .rateLimitError e =>
          scanCompletedTasks doneTime
            (updateScraperStats stats src false (some e) now) now rest
      | .scraperError e =>
          scanCompletedTasks doneTime
            (updateScraperStats stats src false (some e) now) now rest
      | .otherError e =>
          scanCompletedTasks doneTime
            (updateScraperStats stats src false (some e) now) now rest
    else scanCompletedTasks doneTime stats now rest

/-- `ScraperManager._try_concurrent_scraping(symbol, sources,
sources_attempted, max_concurrent)`.  Filters out sources already attempted,
caps at `max_concurrent`, launches each known scraper through
`_scrape_with_timeout`, appending it to `sources_attempted`.
`asyncio.wait(..., return_when=FIRST_COMPLETED, timeout=30)` resumes as soon
as the FIRST task settles — with success or failure alike — and every still
pending task is cancelled; only tasks in `done` are then scanned for a
usable result.  If no task settles within the 30-second phase timeout,
`done` is empty and the phase yields nothing. -/
def tryConcurrentScraping (scrapers : Scrapers) (symbol : String)
    (sources : List String) (attempted : List String) (maxConcurrent : Nat)
    (stats : StatsMap) (now : Nat) :
    Option DividendCalendarResponse × List String × StatsMap × Nat :=
  let remaining := sources.filter (fun s => ! attempted.contains s)
  if remaining.isEmpty then (none, attempted, stats, now)
  else
    let sourcesToTry := remaining.take maxConcurrent
    let tasks : List ConcurrentTask := sourcesToTry.filterMap (fun src =>
      match lookupScraper scrapers src with
      | some behavior => some (src, scrapeWithTimeout behavior symbol src)
      | none => none)
    let attempted' := attempted ++ tasks.map (fun t => t.1)
    if tasks.isEmpty then (none, attempted', stats, now)
    else
      let firstTime := minCompletionTime tasks
      if firstTime ≤ 30 then
        let (result, stats') :=
          scanCompletedTasks firstTime stats (now + firstTime) tasks
        (result, attempted', stats', now + firstTime)
      else
        (none, attempted', stats, now + 30)

/-! ## Orchestrator (`ScraperManager.get_dividend_data` and friends) -/

/-- `self.default_priority = ['yahoo', 'marketwatch']`. -/
def defaultPriority : List String := ["yahoo", "marketwatch"]

/-- Source-list resolution of `get_dividend_data`:
`sources_to_try = preferred_sources or self.default_priority`, then
`[src for src in sources_to_try if src in self.scrapers]` (unknown names are
silently dropped here; the API route rejects them earlier). -/
def resolveSources (scrapers : Scrapers)
    (preferredSources : Option (List String)) : List String :=
  (match preferredSources with
   | some l => if l.isEmpty then defaultPriority else l
   | none => defaultPriority).filter
    (fun s => (lookupScraper scrapers s).isSome)

/-- `ScraperManager.get_dividend_data(symbol, preferred_sources,
max_concurrent)`.  Canonicalises the symbol (`symbol.upper().strip()`),
checks the cache when caching is enabled, resolves the source list
(`preferred_sources or self.default_priority`, then filtered to known
scrapers, raising `ScraperError` when nothing is left), runs the sequential
phase and, if it produced no usable result, the concurrent phase; finally
assembles the response, deduplicating `sources_attempted`, and caches it
when it holds at least one record and caching is enabled.  Returns the
response together with the successor cache state and stats, or the raised
`ScraperError` message. -/
def getDividendData (scrapers : Scrapers) (useCache : Bool) (cacheTtl : Nat)
    (cache : CacheState) (stats : StatsMap) (now : Nat) (symbol : String)
    (preferredSources : Option (List String) := none)
    (maxConcurrent : Nat := 2) :
    Except String (DividendCalendarResponse × CacheState × StatsMap) :=
  let sym := pyStrip (pyUpper symbol)
  let afterCacheCheck :=
    if useCache then cacheGet cache now sym none else (cache, none)
  match afterCacheCheck.2 with
  | some cachedData => .ok (cachedData, afterCacheCheck.1, stats)
  | none =>
    let cache1 := afterCacheCheck.1
    let sourcesToTry := resolveSources scrapers preferredSources
    if sourcesToTry.isEmpty then .error "No valid scrapers specified"
    else
      let (seqResult, attempted1, stats1, now1) :=
        trySequentialScraping scrapers sym sourcesToTry [] stats now
      let (result, attempted2, stats2, now2) :=
        match seqResult with
        | some r =>
          if r.total_count = 0 then
            tryConcurrentScraping scrapers sym sourcesToTry attempted1
              maxConcurrent stats1 now1
          else (some r, attempted1, stats1, now1)
        | none =>
          tryConcurrentScraping scrapers sym sourcesToTry attempted1
            maxConcurrent stats1 now1
      match result with
      | some r =>
        let r' := { r with sources_attempted := attempted2.dedup }
        let cache2 :=
          if r'.total_count > 0 ∧ useCache then
            (cacheSet cache1 now2 sym r' none (some cacheTtl)).1
          else cache1
        .ok (r', cache2, stats2)
      | none =>
        .ok ({ symbol := sym, dividends := [], total_count := 0,
               sources_attempted := attempted2, successful_source := none },
             cache1, stats2)

/-- `ScraperManager.invalidate_symbol_cache(symbol)`: forwards the symbol to
`cache_manager.invalidate` untouched when caching is enabled. -/
def invalidateSymbolCache (useCache : Bool) (cache : CacheState) (now : Nat)
    (symbol : String) : CacheState × Bool :=
  if useCache then cacheInvalidate cache now symbol none else (cache, false)

/-- Python dict assignment `results[symbol] = result`: replace the entry if
the key is present, append otherwise. -/
def insertResult (results : List (String × DividendCalendarResponse))
    (symbol : String) (r : DividendCalendarResponse) :
    List (String × DividendCalendarResponse) :=
  if results.any (fun p => p.1 = symbol) then
    results.map (fun p => if p.1 = symbol then (p.1, r) else p)
  else results ++ [(symbol, r)]

/-- Dictionary lookup in the batch result. -/
def lookupResult (results : List (String × DividendCalendarResponse))
    (symbol : String) : Option DividendCalendarResponse :=
  (results.find? (fun p => p.1 == symbol)).map (fun p => p.2)

/-- The empty response `get_multiple_symbols` substitutes for a symbol whose
pipeline raised (lines 278–284 of `scraper_manager.py`). -/
def batchFailureResponse (symbol : String) : DividendCalendarResponse :=
  { symbol := symbol, dividends := [], total_count := 0,
    sources_attempted := [], successful_source := none }

/-- The entry `get_multiple_symbols` stores for one symbol: the pipeline's
response when it returned, `batchFailureResponse` when it raised
(`isinstance(result, Exception)` after `gather(..., return_exceptions=True)`). -/
def batchEntry (pipeline : String → Except String DividendCalendarResponse)
    (symbol : String) : DividendCalendarResponse :=
  match pipeline symbol with
  | .error _ => batchFailureResponse symbol
  | .ok r => r

/-- `ScraperManager.get_multiple_symbols(symbols, preferred_sources)`.
`pipeline` abstracts one awaited `self.get_dividend_data(symbol,
preferred_sources)` call: `asyncio.gather(..., return_exceptions=True)`
delivers either its response or the exception it raised.  Each symbol maps
to its `batchEntry`; the results dictionary is keyed by the original
(uncanonical) symbol strings. -/
def getMultipleSymbols
    (pipeline : String → Except String DividendCalendarResponse)
    (symbols : List String) : List (String × DividendCalendarResponse) :=
  symbols.foldl (fun results symbol =>
    insertResult results symbol (batchEntry pipeline symbol)) []

/-! ## API route (`app/api/routes.py`, `GET /dividend/{symbol}`) -/

/-- `valid_sources = {'yahoo', 'marketwatch'}` in the route handler. -/
def validSources : List String := ["yahoo", "marketwatch"]

/-- The `HTTPException`s the route handler raises, by their `error_code`
(message text and timestamp omitted). -/
inductive RouteError where
  | invalidSymbol
  | invalidSources (invalid : List String)
  | scraperError (msg : String)
deriving Repr, DecidableEq

/-- The HTTP status code attached to each raised `HTTPException`. -/
def RouteError.statusCode : RouteError → Nat
  | .invalidSymbol => 400
  | .invalidSources _ => 400
  | .scraperError _ => 503

/-- The `error_code` field of the `ErrorResponse` detail. -/
def RouteError.errorCode : RouteError → String
  | .invalidSymbol => "INVALID_SYMBOL"
  | .invalidSources _ => "INVALID_SOURCES"
  | .scraperError _ => "SCRAPER_ERROR"

/-- The route handler `get_dividend_data` of `routes.py`: rejects an empty
or all-whitespace symbol (`INVALID_SYMBOL`), then rejects a supplied,
non-empty source list containing any name outside `valid_sources`
(`INVALID_SOURCES`, listed deduplicated) BEFORE any retrieval work, then
runs the orchestrator with caching temporarily disabled when the
`use_cache` query parameter is false; a raised `ScraperError` surfaces as a
503. -/
def routeGetDividendData (scrapers : Scrapers) (managerUseCache : Bool)
    (cacheTtl : Nat) (cache : CacheState) (stats : StatsMap) (now : Nat)
    (symbol : String) (sources : Option (List String))
    (useCacheParam : Bool) :
    Except RouteError (DividendCalendarResponse × CacheState × StatsMap) :=
  if (pyStrip symbol).isEmpty then .error .invalidSymbol
  else
    let invalid := match sources with
      | some l =>
        if l.isEmpty then []
        else (l.filter (fun s => ! validSources.contains s)).dedup
      | none => []
    if ¬ invalid.isEmpty then .error (.invalidSources invalid)
    else
      match getDividendData scrapers (managerUseCache && useCacheParam)
          cacheTtl cache stats now symbol sources 2 with
      | .ok res => .ok res
      | .error msg => .error (.scraperError msg)

/-! ## Concrete fixtures for the verified scenarios -/

/-- A concrete dividend record attributed to scraper `src`. -/
def sampleRecord (src : String) (n : Nat) : DividendData :=
  { symbol := "AAPL", source := src, scraped_at := n }

/-- A two-record scrape result, as a scraper returns it (no provenance
metadata filled in yet). -/
def sampleResponse : DividendCalendarResponse :=
  { symbol := "AAPL",
    dividends := [sampleRecord "marketwatch" 0, sampleRecord "marketwatch" 1],
    total_count := 2 }

/-- A one-record scrape result. -/
def oneRecordResponse : DividendCalendarResponse :=
  { symbol := "AAPL", dividends := [sampleRecord "marketwatch" 0],
    total_count := 1 }

/-- A scrape result with zero records (Python: `total_count == 0`). -/
def zeroRecordResponse : DividendCalendarResponse :=
  { symbol := "AAPL" }

/-- A response as it sits in the cache store: not marked as a cache hit,
display expiry at instant 3600. -/
def storedSample : DividendCalendarResponse :=
  { symbol := "AAPL", dividends := [sampleRecord "yahoo" 0],
    total_count := 1, cached := false, cache_expires_at := some 3600 }

/-- A cache holding `storedSample` under the canonical key for `AAPL`,
evictable at instant 3600. -/
def cacheWithSample : CacheState :=
  { entries := [⟨"dividend:AAPL", storedSample, 3600⟩] }

/-- The spec's fallback-ordering scenario: provider A (`yahoo`) raises, then
provider B (`marketwatch`) succeeds with 2 records. -/
def scrapersAB : Scrapers :=
  [("yahoo", fun _ => (1, .scraperError "connection error")),
   ("marketwatch", fun _ => (1, .ok (some sampleResponse)))]

/-- The spec's concurrent-race scenario: the faster provider fails after
1 second; the slower provider returns 1 record after 5 seconds, inside both
the 15-second per-attempt timeout and the 30-second phase timeout. -/
def raceScrapers : Scrapers :=
  [("yahoo", fun _ => (1, .scraperError "connection error")),
   ("marketwatch", fun _ => (5, .ok (some oneRecordResponse)))]

/-- A single provider that completes without raising but with zero
records. -/
def zeroScrapers : Scrapers :=
  [("yahoo", fun _ => (2, .ok (some zeroRecordResponse)))]

/-- Two providers that both fail. -/
def allFailScrapers : Scrapers :=
  [("yahoo", fun _ => (1, .scraperError "connection error")),
   ("marketwatch", fun _ => (1, .rateLimitError "429"))]

/-- A batch pipeline where only `AAPL` succeeds and every other symbol's
pipeline raises. -/
def batchPipeline (symbol : String) : Except String DividendCalendarResponse :=
  if symbol = "AAPL" then .ok sampleResponse else .error "invalid symbol"

/-! ## Helper lemmas -/

/-- Decidable test: a sequential attempt at `src` yields no usable result —
the name is unknown, awaiting it raises, it returns `None`, or it returns a
zero-record response. -/
def attemptFailsOrZero (scrapers : Scrapers) (symbol : String)
    (src : String) : Bool :=
  match lookupScraper scrapers src with
  | none => true
  | some behavior =>
    match (behavior symbol).2 with
    | .ok (some r) => r.total_count == 0
    | _ => true

/-- A miss leaves the cache state untouched. -/
theorem cacheGet_miss (c : CacheState) (now : Nat) (symbol : String)
    (source : Option String)
    (h : (cacheGet c now symbol source).2 = none) :
    cacheGet c now symbol source = (c, none) := by
  unfold cacheGet at *
  cases hl : lookupLive c now (generateCacheKey symbol source) <;>
    simp [hl] at h ⊢

/-- Rewriting the slot holding `key` makes its stored value `v`, keeping the
slot's key and eviction deadline. -/
theorem replaceSlotValue_find? (entries : List CacheSlot) (key : String)
    (v : DividendCalendarResponse) (e : CacheSlot)
    (h : entries.find? (fun s => s.key == key) = some e) :
    (replaceSlotValue entries key v).find? (fun s => s.key == key) =
      some { e with value := v } := by
  induction entries with
  | nil => simp at h
  | cons hd tl ih =>
    by_cases hk : hd.key = key
    · have hb : (hd.key == key) = true := by simp [hk]
      simp only [List.find?, hb, Option.some.injEq] at h
      simp only [replaceSlotValue, List.map_cons, if_pos hk, List.find?]
      simp [hb, ← h]
    · have hb : (hd.key == key) = false := by simp [hk]
      simp only [List.find?, hb] at h
      simp only [replaceSlotValue, List.map_cons, if_neg hk, List.find?, hb]
      simpa [replaceSlotValue] using ih h

/-- Rewriting the slot holding `key` leaves every other slot as it was. -/
theorem replaceSlotValue_other (entries : List CacheSlot) (key : String)
    (v : DividendCalendarResponse) :
    ∀ s ∈ replaceSlotValue entries key v, s.key ≠ key → s ∈ entries := by
  intro s hs hne
  rcases List.mem_map.mp hs with ⟨t, ht, hts⟩
  by_cases hk : t.key = key
  · exfalso
    apply hne
    rw [← hts]
    simp [hk]
  · rw [← hts]
    simpa [hk] using ht

/-- When every source in the list fails or yields zero records, the
sequential phase returns no result and has attempted exactly the known
sources, in order. -/
theorem trySequentialScraping_all_fail (scrapers : Scrapers) (symbol : String)
    (sources : List String) :
    (∀ src ∈ sources, attemptFailsOrZero scrapers symbol src = true) →
    ∀ (attempted : List String) (stats : StatsMap) (now : Nat),
      ∃ stats' now',
        trySequentialScraping scrapers symbol sources attempted stats now =
          (none,
           attempted ++
             sources.filter (fun s => (lookupScraper scrapers s).isSome),
           stats', now') := by
  induction sources with
  | nil =>
    intro _ attempted stats now
    exact ⟨stats, now, by simp [trySequentialScraping]⟩
  | cons src rest ih =>
    intro h attempted stats now
    have hsrc := h src (List.mem_cons_self _ _)
    have hrest : ∀ s ∈ rest, attemptFailsOrZero scrapers symbol s = true :=
      fun s hs => h s (List.mem_cons_of_mem _ hs)
    cases hl : lookupScraper scrapers src with
    | none =>
      obtain ⟨stats', now', heq⟩ := ih hrest attempted stats now
      exact ⟨stats', now', by simp [trySequentialScraping, hl, heq]⟩
    | some behavior =>
      simp only [attemptFailsOrZero, hl] at hsrc
      cases ho : (behavior symbol).2 with
      | ok or =>
        cases or with
        | some r =>
          rw [ho] at hsrc
          have hzero : r.total_count = 0 := by
            simpa using hsrc
          obtain ⟨stats', now', heq⟩ :=
            ih hrest (attempted ++ [src]) stats (now + (behavior symbol).1)
          refine ⟨stats', now', ?_⟩
          simp [trySequentialScraping, hl, ho, hzero, heq]
        | none =>
          obtain ⟨stats', now', heq⟩ :=
            ih hrest (attempted ++ [src]) stats (now + (behavior symbol).1)
          refine ⟨stats', now', ?_⟩
          simp [trySequentialScraping, hl, ho, heq]
      | rateLimitError e =>
        obtain ⟨stats', now', heq⟩ :=
          ih hrest (attempted ++ [src])
            (updateScraperStats stats src false (some e)
              (now + (behavior symbol).1))
            (now + (behavior symbol).1 + 2)
        refine ⟨stats', now', ?_⟩
        simp [trySequentialScraping, hl, ho, heq]
      | scraperError e =>
        obtain ⟨stats', now', heq⟩ :=
          ih hrest (attempted ++ [src])
            (updateScraperStats stats src false (some e)
              (now + (behavior symbol).1))
            (now + (behavior symbol).1)
        refine ⟨stats', now', ?_⟩
        simp [trySequentialScraping, hl, ho, heq]
      | otherError e =>
        obtain ⟨stats', now', heq⟩ :=
          ih hrest (attempted ++ [src])
            (updateScraperStats stats src false (some e)
              (now + (behavior symbol).1))
            (now + (behavior symbol).1)
        refine ⟨stats', now', ?_⟩
        simp [trySequentialScraping, hl, ho, heq]

/-- After any run of failing-or-zero sources, the first source whose fetch
returns a response with at least one record wins: its name is stamped as
`successful_source`, the attempted list is exactly the known prefix plus the
winner, and no later source is reached. -/
theorem trySequentialScraping_first_success (scrapers : Scrapers)
    (symbol : String) (pre : List String) :
    (∀ src ∈ pre, attemptFailsOrZero scrapers symbol src = true) →
    ∀ (winner : String) (behavior : Behavior) (r : DividendCalendarResponse)
      (post attempted : List String) (stats : StatsMap) (now : Nat),
      lookupScraper scrapers winner = some behavior →
      (behavior symbol).2 = .ok (some r) → 0 < r.total_count →
      ∃ stats' now',
        trySequentialScraping scrapers symbol (pre ++ winner :: post)
            attempted stats now =
          (some { r with successful_source := some winner },
           attempted ++
             pre.filter (fun s => (lookupScraper scrapers s).isSome) ++
             [winner],
           stats', now') := by
  induction pre with
  | nil =>
    intro _ winner behavior r post attempted stats now hw ho hc
    refine ⟨updateScraperStats stats winner true none
        (now + (behavior symbol).1), now + (behavior symbol).1, ?_⟩
    simp [trySequentialScraping, hw, ho, hc]
  | cons src rest ih =>
    intro h winner behavior r post attempted stats now hw ho hc
    have hsrc := h src (List.mem_cons_self _ _)
    have hrest : ∀ s ∈ rest, attemptFailsOrZero scrapers symbol s = true :=
      fun s hs => h s (List.mem_cons_of_mem _ hs)
    cases hl : lookupScraper scrapers src with
    | none =>
      obtain ⟨stats', now', heq⟩ :=
        ih hrest winner behavior r post attempted stats now hw ho hc
      exact ⟨stats', now', by simp [trySequentialScraping, hl, heq]⟩
    | some b =>
      simp only [attemptFailsOrZero, hl] at hsrc
      cases hb : (b symbol).2 with
      | ok or =>
        cases or with
        | some r0 =>
          rw [hb] at hsrc
          have hzero : r0.total_count = 0 := by simpa using hsrc
          obtain ⟨stats', now', heq⟩ :=
            ih hrest winner behavior r post (attempted ++ [src]) stats
              (now + (b symbol).1) hw ho hc
          refine ⟨stats', now', ?_⟩
          simp [trySequentialScraping, hl, hb, hzero, heq]
        | none =>
          obtain ⟨stats', now', heq⟩ :=
            ih hrest winner behavior r post (attempted ++ [src]) stats
              (now + (b symbol).1) hw ho hc
          refine ⟨stats', now', ?_⟩
          simp [trySequentialScraping, hl, hb, heq]
      | rateLimitError e =>
        obtain ⟨stats', now', heq⟩ :=
          ih hrest winner behavior r post (attempted ++ [src])
            (updateScraperStats stats src false (some e) (now + (b symbol).1))
            (now + (b symbol).1 + 2) hw ho hc
        refine ⟨stats', now', ?_⟩
        simp [trySequentialScraping, hl, hb, heq]
      | scraperError e =>
        obtain ⟨stats', now', heq⟩ :=
          ih hrest winner behavior r post (attempted ++ [src])
            (updateScraperStats stats src false (some e) (now + (b symbol).1))
            (now + (b symbol).1) hw ho hc
        refine ⟨stats', now', ?_⟩
        simp [trySequentialScraping, hl, hb, heq]
      | otherError e =>
        obtain ⟨stats', now', heq⟩ :=
          ih hrest winner behavior r post (attempted ++ [src])
            (updateScraperStats stats src false (some e) (now + (b symbol).1))
            (now + (b symbol).1) hw ho hc
        refine ⟨stats', now', ?_⟩
        simp [trySequentialScraping, hl, hb, heq]

/-- `resolveSources` keeps only known scrapers, so filtering it again by
the known-scraper test changes nothing. -/
theorem resolveSources_filter (scrapers : Scrapers)
    (ps : Option (List String)) :
    (resolveSources scrapers ps).filter
        (fun s => (lookupScraper scrapers s).isSome) =
      resolveSources scrapers ps :=
  List.filter_eq_self.mpr (fun _ hs => (List.mem_filter.mp hs).2)

/-- When every source has been attempted already, the concurrent phase
launches nothing and yields no result. -/
theorem tryConcurrentScraping_no_remaining (scrapers : Scrapers)
    (symbol : String) (sources attempted : List String)
    (maxConcurrent : Nat) (stats : StatsMap) (now : Nat)
    (h : sources.filter (fun s => ! attempted.contains s) = []) :
    tryConcurrentScraping scrapers symbol sources attempted maxConcurrent
        stats now = (none, attempted, stats, now) := by
  simp only [tryConcurrentScraping, h]
  simp

/-- Dict assignment then lookup of the same key yields the assigned value. -/
theorem lookupResult_insertResult_self
    (results : List (String × DividendCalendarResponse))
    (symbol : String) (r : DividendCalendarResponse) :
    lookupResult (insertResult results symbol r) symbol = some r := by
  induction results with
  | nil => simp [insertResult, lookupResult, List.find?]
  | cons hd tl ih =>
    by_cases hk : hd.1 = symbol
    · simp [insertResult, lookupResult, List.find?, hk]
    · by_cases hany : tl.any (fun p => p.1 = symbol) = true
      · simp only [insertResult, List.any_cons, hany, Bool.or_true,
          if_pos, decide_eq_true_eq] at *
        simp only [lookupResult, List.map_cons, if_neg hk, List.find?] at *
        have hb : (hd.1 == symbol) = false := by simp [hk]
        simp only [hb] at *
        simpa [insertResult, hany, lookupResult] using ih
      · simp only [insertResult, List.any_cons, decide_eq_true_eq] at *
        have hb : (hd.1 == symbol) = false := by simp [hk]
        simp [hk, hany, lookupResult, List.find?, hb] at *
        simpa [insertResult, hany, lookupResult] using ih

/-- Overwriting the values stored under `symbol` does not change what a
lookup for a different key finds. -/
theorem find?_map_replace
    (tl : List (String × DividendCalendarResponse)) (symbol s : String)
    (r : DividendCalendarResponse) (hne : (symbol == s) = false) :
    (tl.map (fun p => if p.1 = symbol then (p.1, r) else p)).find?
        (fun p => p.1 == s) =
      tl.find? (fun p => p.1 == s) := by
  induction tl with
  | nil => simp
  | cons hd tl ih =>
    by_cases hk : hd.1 = symbol
    · have hb : (hd.1 == s) = false := by rw [hk]; exact hne
      simp [List.find?, hk, hb, hne, ih]
    · cases hb : (hd.1 == s) with
      | true => simp [List.find?, hk, hb]
      | false => simp [List.find?, hk, hb, ih]

/-- Appending an entry for a different key does not change what a lookup
finds. -/
theorem find?_append_single
    (l : List (String × DividendCalendarResponse)) (symbol s : String)
    (r : DividendCalendarResponse) (hne : (symbol == s) = false) :
    (l ++ [(symbol, r)]).find? (fun p => p.1 == s) =
      l.find? (fun p => p.1 == s) := by
  induction l with
  | nil => simp [List.find?, hne]
  | cons hd tl ih =>
    cases hb : (hd.1 == s) with
    | true => simp [List.find?, hb]
    | false => simp [List.find?, hb, ih]

/-- Dict assignment under one key leaves lookups of every other key
unchanged. -/
theorem lookupResult_insertResult_other
    (results : List (String × DividendCalendarResponse))
    (symbol : String) (r : DividendCalendarResponse) (s : String)
    (hne : s ≠ symbol) :
    lookupResult (insertResult results symbol r) s =
      lookupResult results s := by
  have hbs : (symbol == s) = false := by simp [Ne.symm hne]
  unfold insertResult lookupResult
  by_cases hany : (results.any fun p => decide (p.1 = symbol)) = true
  · rw [if_pos hany, find?_map_replace results symbol s r hbs]
  · rw [if_neg hany, find?_append_single results symbol s r hbs]

/-- The batch fold maps every processed symbol to its `batchEntry`,
regardless of what the accumulator held before (or, for symbols not in the
remainder, keeps an accumulator entry that already agrees). -/
theorem getMultipleSymbols_foldl
    (pipeline : String → Except String DividendCalendarResponse)
    (symbols : List String) :
    ∀ (acc : List (String × DividendCalendarResponse)) (s : String),
      (s ∈ symbols ∨ lookupResult acc s = some (batchEntry pipeline s)) →
      lookupResult
          (symbols.foldl (fun results symbol =>
            insertResult results symbol (batchEntry pipeline symbol)) acc)
          s =
        some (batchEntry pipeline s) := by
  induction symbols with
  | nil =>
    intro acc s h
    rcases h with h | h
    · simp at h
    · simpa using h
  | cons sym rest ih =>
    intro acc s h
    simp only [List.foldl_cons]
    apply ih
    by_cases hss : s = sym
    · right
      subst hss
      exact lookupResult_insertResult_self acc s _
    · rcases h with h | h
      · rcases List.mem_cons.mp h with h | h
        · exact absurd h hss
        · left; exact h
      · right
        rw [lookupResult_insertResult_other acc sym _ s hss]
        exact h

/-! ## Verified claims -/

/-- Claim C1: the claim says the concurrent fallback phase lets the first
provider attempt that completes with at least one record win even when
another attempt completes EARLIER with a failure.  The code disagrees:
`asyncio.wait(..., return_when=FIRST_COMPLETED)` resumes on the first
completion of any kind and cancels all pending tasks.  Evaluated at the
claim's own scenario — the faster provider (`yahoo`) fails at t=1, the
slower (`marketwatch`) would deliver 1 record at t=5, inside the 15-second
per-attempt timeout and the 30-second phase timeout — the phase yields no
result instead of the slower provider's data. -/
theorem C1_first_completion_cancels_pending_success :
    ((lookupScraper raceScrapers "marketwatch").map
        (fun b => scrapeWithTimeout b "AAPL" "marketwatch" 15) =
      some (5, .ok (some oneRecordResponse))) ∧
    oneRecordResponse.total_count = 1 ∧ 5 ≤ 15 ∧ 5 ≤ 30 ∧
    ((lookupScraper raceScrapers "yahoo").map
        (fun b => scrapeWithTimeout b "AAPL" "yahoo" 15) =
      some (1, .scraperError "connection error")) ∧ 1 < 5 ∧
    (tryConcurrentScraping raceScrapers "AAPL" ["yahoo", "marketwatch"] [] 2
        defaultScraperStats 0).1 = none := by decide

/-- Claim C2: in the sequential phase providers are attempted strictly in
list order; the first one whose fetch returns at least one record is
stamped as `successful_source`, the attempted list is exactly the known
prefix plus the winner (so iteration stops), and — concretely, for
providers [A(fails), B(succeeds with 2 records)] — the orchestrator
returns `successful_source = B`, `sources_attempted ⊇ {A, B}` and record
count 2. -/
theorem C2_sequential_priority_first_success :
    (∀ (scrapers : Scrapers) (symbol : String) (pre : List String)
       (winner : String) (behavior : Behavior) (r : DividendCalendarResponse)
       (post attempted : List String) (stats : StatsMap) (now : Nat),
       (∀ src ∈ pre, attemptFailsOrZero scrapers symbol src = true) →
       lookupScraper scrapers winner = some behavior →
       (behavior symbol).2 = .ok (some r) → 0 < r.total_count →
       ∃ stats' now',
         trySequentialScraping scrapers symbol (pre ++ winner :: post)
             attempted stats now =
           (some { r with successful_source := some winner },
            attempted ++
              pre.filter (fun s => (lookupScraper scrapers s).isSome) ++
              [winner], stats', now')) ∧
    ((getDividendData scrapersAB true 3600 emptyCacheState defaultScraperStats
        0 "AAPL" (some ["yahoo", "marketwatch"]) 2).toOption.map
      (fun t => (t.1.successful_source, t.1.total_count,
                 t.1.sources_attempted.contains "yahoo",
                 t.1.sources_attempted.contains "marketwatch")) =
      some (some "marketwatch", 2, true, true)) := by
  constructor
  · intro scrapers symbol pre winner behavior r post attempted stats now
      h hw ho hc
    exact trySequentialScraping_first_success scrapers symbol pre h winner
      behavior r post attempted stats now hw ho hc
  · decide

/-- Witness for C2 at the spec's concrete scenario. -/
theorem C2_sequential_priority_first_success_witness :
    ∃ stats' now',
      trySequentialScraping scrapersAB "AAPL"
          (["yahoo"] ++ "marketwatch" :: []) [] defaultScraperStats 0 =
        (some { sampleResponse with successful_source := some "marketwatch" },
         [] ++
           (["yahoo"].filter (fun s => (lookupScraper scrapersAB s).isSome)) ++
           ["marketwatch"], stats', now') :=
  C2_sequential_priority_first_success.1 scrapersAB "AAPL" ["yahoo"]
    "marketwatch" (fun _ => (1, .ok (some sampleResponse))) sampleResponse
    [] [] defaultScraperStats 0 (by decide) rfl rfl (by decide)

/-- Claim C3: when the cache misses and every resolved provider fails or
returns zero records, single-symbol retrieval returns (does not raise) a
result with `total_count = 0` and `successful_source = None`, and the
cache state is exactly the input cache state — the empty result is not
stored. -/
theorem C3_all_fail_empty_result_not_cached
    (scrapers : Scrapers) (cacheTtl : Nat) (cache : CacheState)
    (stats : StatsMap) (now : Nat) (symbol : String)
    (preferredSources : Option (List String)) (maxConcurrent : Nat)
    (hmiss : (cacheGet cache now (pyStrip (pyUpper symbol)) none).2 = none)
    (hne : resolveSources scrapers preferredSources ≠ [])
    (hfail : ∀ src ∈ resolveSources scrapers preferredSources,
      attemptFailsOrZero scrapers (pyStrip (pyUpper symbol)) src = true) :
    ∃ res stats',
      getDividendData scrapers true cacheTtl cache stats now symbol
          preferredSources maxConcurrent = .ok (res, cache, stats') ∧
      res.total_count = 0 ∧ res.successful_source = none := by
  have hcache := cacheGet_miss cache now (pyStrip (pyUpper symbol)) none hmiss
  obtain ⟨stats1, now1, hseq⟩ :=
    trySequentialScraping_all_fail scrapers (pyStrip (pyUpper symbol))
      (resolveSources scrapers preferredSources) hfail [] stats now
  rw [resolveSources_filter] at hseq
  simp only [List.nil_append] at hseq
  have hrem : (resolveSources scrapers preferredSources).filter
      (fun s =>
        ! (resolveSources scrapers preferredSources).contains s) = [] := by
    apply List.filter_eq_nil_iff.mpr
    intro s hs
    simp [hs]
  have hconc := tryConcurrentScraping_no_remaining scrapers
    (pyStrip (pyUpper symbol)) (resolveSources scrapers preferredSources)
    (resolveSources scrapers preferredSources) maxConcurrent stats1 now1 hrem
  have hempty : (resolveSources scrapers preferredSources).isEmpty = false := by
    cases hr : resolveSources scrapers preferredSources with
    | nil => exact absurd hr hne
    | cons a l => simp
  refine ⟨{ symbol := pyStrip (pyUpper symbol),
            sources_attempted := resolveSources scrapers preferredSources },
          stats1, ?_, rfl, rfl⟩
  simp only [getDividendData, if_true, hcache, hempty, Bool.false_eq_true,
    if_false, hseq, hconc]

/-- Witness for C3 with two concretely failing providers. -/
theorem C3_all_fail_empty_result_not_cached_witness :
    ∃ res stats',
      getDividendData allFailScrapers true 3600 emptyCacheState
          defaultScraperStats 0 "AAPL" none 2 = .ok (res, emptyCacheState, stats') ∧
      res.total_count = 0 ∧ res.successful_source = none :=
  C3_all_fail_empty_result_not_cached allFailScrapers 3600 emptyCacheState
    defaultScraperStats 0 "AAPL" none 2 (by decide) (by decide) (by decide)

/-- Counterexample to claim C4: the claim says a cache hit rewrites only
the RETURNED COPY while the stored entry's contents stay unchanged.  In the
code, `cached_data` IS the stored dictionary, so the hit mutates the store:
starting from a state whose stored value has `cached = false`, a `get`
leaves the store with `cached = true`. -/
theorem C4_counterexample_get_mutates_stored_entry :
    storedSample.cached = false ∧
    ((cacheGet cacheWithSample 5 "AAPL" none).2).isSome = true ∧
    (cacheGet cacheWithSample 5 "AAPL" none).1 ≠ cacheWithSample ∧
    ((cacheGet cacheWithSample 5 "AAPL" none).1.entries.map
        (fun s => s.value.cached)) = [true] := by decide

/-- Claim C4 (amended): a cache hit rewrites the STORED dictionary itself —
the cached flag becomes true and a forward-looking display expiry
(`now + default_ttl`) is recomputed on it — and returns the response built
from that mutated dictionary; the slot's real eviction deadline recorded at
write time, all other slots, and the configured TTL are unchanged. -/
theorem C4_hit_mutates_store_but_not_real_ttl (c : CacheState) (now : Nat)
    (symbol : String) (source : Option String) (e : CacheSlot)
    (hfind : c.entries.find?
        (fun s => s.key == generateCacheKey symbol source) = some e)
    (hlive : now < e.expireAt) :
    cacheGet c now symbol source =
      ({ c with
          entries :=
            replaceSlotValue c.entries (generateCacheKey symbol source)
              (hitRewrite e.value now c.default_ttl) },
       some (hitRewrite e.value now c.default_ttl)) ∧
    (cacheGet c now symbol source).1.entries.find?
        (fun s => s.key == generateCacheKey symbol source) =
      some ⟨e.key, hitRewrite e.value now c.default_ttl, e.expireAt⟩ ∧
    (∀ s ∈ (cacheGet c now symbol source).1.entries,
       s.key ≠ generateCacheKey symbol source → s ∈ c.entries) := by
  have hl : lookupLive c now (generateCacheKey symbol source) =
      some e.value := by
    simp only [lookupLive, hfind, if_pos hlive]
  have hmain : cacheGet c now symbol source =
      ({ c with
          entries :=
            replaceSlotValue c.entries (generateCacheKey symbol source)
              (hitRewrite e.value now c.default_ttl) },
       some (hitRewrite e.value now c.default_ttl)) := by
    simp only [cacheGet, hl]
  refine ⟨hmain, ?_, ?_⟩
  · rw [hmain]
    exact replaceSlotValue_find? c.entries _ _ e hfind
  · rw [hmain]
    exact replaceSlotValue_other c.entries _ _

/-- Witness for the amended C4 on a concrete hit. -/
theorem C4_hit_mutates_store_but_not_real_ttl_witness :
    cacheGet cacheWithSample 5 "AAPL" none =
      ({ cacheWithSample with
          entries :=
            replaceSlotValue cacheWithSample.entries
              (generateCacheKey "AAPL" none)
              (hitRewrite storedSample 5 cacheWithSample.default_ttl) },
       some (hitRewrite storedSample 5 cacheWithSample.default_ttl)) ∧
    (cacheGet cacheWithSample 5 "AAPL" none).1.entries.find?
        (fun s => s.key == generateCacheKey "AAPL" none) =
      some ⟨"dividend:AAPL",
            hitRewrite storedSample 5 cacheWithSample.default_ttl, 3600⟩ ∧
    (∀ s ∈ (cacheGet cacheWithSample 5 "AAPL" none).1.entries,
       s.key ≠ generateCacheKey "AAPL" none → s ∈ cacheWithSample.entries) :=
  C4_hit_mutates_store_but_not_real_ttl cacheWithSample 5 "AAPL" none
    ⟨"dividend:AAPL", storedSample, 3600⟩ (by decide) (by decide)

/-- Claim C5: the claim says an entry set with per-call `ttl = T` is a miss
once more than `T` has elapsed.  The code's own comment promises a custom
TTL, but both branches of the conditional store identically and the
`TTLCache` evicts at `write + default_ttl` regardless: 100 seconds after a
`set` with `ttl = 10`, `get` still HITS and returns the stored 2-record
result, while the slot's own display label says it expired at 10.  The
per-call TTL only feeds that display label. -/
theorem C5_per_call_ttl_ignored_on_expiry :
    ((cacheGet (cacheSet emptyCacheState 0 "AAPL" sampleResponse none
        (some 10)).1 100 "AAPL" none).2.map (fun r => r.total_count)) =
      some 2 ∧
    ((cacheSet emptyCacheState 0 "AAPL" sampleResponse none
        (some 10)).1.entries.map
      (fun s => (s.value.cache_expires_at, s.expireAt))) =
      [(some 10, 3600)] := by decide

/-- Claim C6: cache round-trip — for every state with a positive configured
TTL, symbol, result and per-call TTL `T > 0`, `set(sym, r, ttl := T)`
followed immediately by `get(sym)` returns a response with the same record
list (hence the same record set and count) and `cached = true`. -/
theorem C6_cache_round_trip (c : CacheState) (now : Nat) (symbol : String)
    (r : DividendCalendarResponse) (T : Nat) (hT : 0 < T)
    (httl : 0 < c.default_ttl) :
    ∃ out,
      (cacheGet (cacheSet c now symbol r none (some T)).1 now symbol none).2 =
        some out ∧
      out.dividends = r.dividends ∧ out.total_count = r.total_count ∧
      out.cached = true := by
  have hlt : now < now + c.default_ttl := Nat.lt_add_of_pos_right httl
  simp only [cacheSet, cacheGet, lookupLive, List.find?, beq_self_eq_true,
    if_pos hlt]
  exact ⟨_, rfl, rfl, rfl, rfl⟩

/-- Witness for C6 at a concrete set-then-get. -/
theorem C6_cache_round_trip_witness :
    ∃ out,
      (cacheGet (cacheSet emptyCacheState 0 "AAPL" sampleResponse none
          (some 10)).1 0 "AAPL" none).2 = some out ∧
      out.dividends = sampleResponse.dividends ∧
      out.total_count = sampleResponse.total_count ∧ out.cached = true :=
  C6_cache_round_trip emptyCacheState 0 "AAPL" sampleResponse 10
    (by decide) (by decide)

/-- Claim C7: a caller-supplied source list holding at least one name
outside the known provider set is rejected by the retrieval endpoint with
the invalid-source-list error (HTTP 400, `INVALID_SOURCES`) before any
provider work, the offending name being reported rather than silently
dropped. -/
theorem C7_unknown_source_rejected (scrapers : Scrapers)
    (managerUseCache : Bool) (cacheTtl : Nat) (cache : CacheState)
    (stats : StatsMap) (now : Nat) (symbol : String)
    (sources : List String) (useCacheParam : Bool) (s : String)
    (hsym : (pyStrip symbol).isEmpty = false)
    (hs : s ∈ sources) (hunknown : validSources.contains s = false) :
    ∃ invalid,
      routeGetDividendData scrapers managerUseCache cacheTtl cache stats now
          symbol (some sources) useCacheParam =
        .error (.invalidSources invalid) ∧
      s ∈ invalid ∧
      (RouteError.invalidSources invalid).statusCode = 400 ∧
      (RouteError.invalidSources invalid).errorCode = "INVALID_SOURCES" := by
  have hne : sources.isEmpty = false := by
    cases sources with
    | nil => simp at hs
    | cons a l => simp
  have hmem : s ∈ (sources.filter
      (fun x => ! validSources.contains x)).dedup := by
    rw [List.mem_dedup]
    exact List.mem_filter.mpr ⟨hs, by simpa using hunknown⟩
  have hinv : ((sources.filter
      (fun x => ! validSources.contains x)).dedup).isEmpty = false := by
    cases h : (sources.filter (fun x => ! validSources.contains x)).dedup with
    | nil => rw [h] at hmem; simp at hmem
    | cons a l => simp
  refine ⟨(sources.filter (fun x => ! validSources.contains x)).dedup,
    ?_, hmem, rfl, rfl⟩
  simp only [routeGetDividendData, hsym, Bool.false_eq_true, if_false, hne,
    hinv, if_true, not_false_eq_true]

/-- Witness for C7: requesting `["yahoo", "google"]` is rejected. -/
theorem C7_unknown_source_rejected_witness :
    ∃ invalid,
      routeGetDividendData scrapersAB true 3600 emptyCacheState
          defaultScraperStats 0 "AAPL" (some ["yahoo", "google"]) true =
        .error (.invalidSources invalid) ∧
      "google" ∈ invalid ∧
      (RouteError.invalidSources invalid).statusCode = 400 ∧
      (RouteError.invalidSources invalid).errorCode = "INVALID_SOURCES" :=
  C7_unknown_source_rejected scrapersAB true 3600 emptyCacheState
    defaultScraperStats 0 "AAPL" ["yahoo", "google"] true "google"
    (by decide) (by decide) (by decide)

/-- Claim C8: batch retrieval maps every original input symbol string to a
`RetrievalResult` — always its pipeline's `batchEntry`, so the full input
set is preserved even when every pipeline raises; a symbol whose pipeline
raises gets exactly the empty `batchFailureResponse`; and a symbol's output
entry depends only on its own pipeline outcome, so one symbol's exception
never alters another symbol's entry or aborts the batch. -/
theorem C8_batch_isolation :
    (∀ (pipeline : String → Except String DividendCalendarResponse)
       (symbols : List String) (s : String), s ∈ symbols →
       lookupResult (getMultipleSymbols pipeline symbols) s =
         some (batchEntry pipeline s)) ∧
    (∀ (pipeline : String → Except String DividendCalendarResponse)
       (symbols : List String) (s : String) (e : String), s ∈ symbols →
       pipeline s = .error e →
       lookupResult (getMultipleSymbols pipeline symbols) s =
         some (batchFailureResponse s)) ∧
    (∀ (p q : String → Except String DividendCalendarResponse)
       (symbols : List String) (s : String), s ∈ symbols → p s = q s →
       lookupResult (getMultipleSymbols p symbols) s =
         lookupResult (getMultipleSymbols q symbols) s) := by
  have hmain : ∀ (pipeline : String → Except String DividendCalendarResponse)
      (symbols : List String) (s : String), s ∈ symbols →
      lookupResult (getMultipleSymbols pipeline symbols) s =
        some (batchEntry pipeline s) := by
    intro pipeline symbols s hs
    exact getMultipleSymbols_foldl pipeline symbols [] s (Or.inl hs)
  refine ⟨hmain, ?_, ?_⟩
  · intro pipeline symbols s e hs herr
    rw [hmain pipeline symbols s hs]
    simp [batchEntry, herr]
  · intro p q symbols s hs hpq
    rw [hmain p symbols s hs, hmain q symbols s hs]
    simp [batchEntry, hpq]

/-- Witness for C8 at the spec's `["AAPL", "BAD!!!"]` example. -/
theorem C8_batch_isolation_witness :
    lookupResult (getMultipleSymbols batchPipeline ["AAPL", "BAD!!!"])
        "BAD!!!" = some (batchFailureResponse "BAD!!!") :=
  C8_batch_isolation.2.1 batchPipeline ["AAPL", "BAD!!!"] "BAD!!!"
    "invalid symbol" (by decide) rfl

/-- Counterexample to claim C9: the claim says cache keys use the trimmed
and uppercased symbol, so strings differing only by surrounding whitespace
address the same entry and invalidation removes an entry stored under the
canonical form.  The code only uppercases: `" AAPL "` (the canonical form
`"AAPL"` plus surrounding whitespace) produces a different key, and
invalidating it returns `False` and removes nothing although the canonical
entry is live. -/
theorem C9_counterexample_whitespace_changes_key :
    lookupLive cacheWithSample 5 "dividend:AAPL" = some storedSample ∧
    generateCacheKey " AAPL " none ≠ generateCacheKey "AAPL" none ∧
    cacheInvalidate cacheWithSample 5 " AAPL " none =
      (cacheWithSample, false) := by decide

/-- Claim C9 (amended): cache keys are built from the UPPERCASED symbol
only — no trimming.  Any two strings with the same uppercasing (in
particular, strings differing only by letter case) address the same entry
under get, set and invalidate, and invalidating a case-variant does remove
a previously stored entry; strings differing by surrounding whitespace
yield different keys. -/
theorem C9_keys_uppercased_not_trimmed :
    (∀ (s1 s2 : String) (source : Option String),
      pyUpper s1 = pyUpper s2 →
      generateCacheKey s1 source = generateCacheKey s2 source) ∧
    (∀ (c : CacheState) (now : Nat) (data : DividendCalendarResponse)
       (ttl : Option Nat) (s1 s2 : String), pyUpper s1 = pyUpper s2 →
      cacheGet c now s1 none = cacheGet c now s2 none ∧
      cacheSet c now s1 data none ttl = cacheSet c now s2 data none ttl ∧
      cacheInvalidate c now s1 none = cacheInvalidate c now s2 none) ∧
    cacheInvalidate cacheWithSample 5 "aapl" none =
      ({ cacheWithSample with entries := [] }, true) := by
  have hkey : ∀ (s1 s2 : String) (source : Option String),
      pyUpper s1 = pyUpper s2 →
      generateCacheKey s1 source = generateCacheKey s2 source := by
    intro s1 s2 source h
    unfold generateCacheKey
    cases source <;> simp [h]
  refine ⟨hkey, ?_, by decide⟩
  intro c now data ttl s1 s2 h
  refine ⟨?_, ?_, ?_⟩
  · unfold cacheGet
    rw [hkey s1 s2 none h]
  · unfold cacheSet
    rw [hkey s1 s2 none h]
  · unfold cacheInvalidate
    rw [hkey s1 s2 none h]

/-- Witness for the amended C9: a lowercase spelling addresses the same
key as the canonical form. -/
theorem C9_keys_uppercased_not_trimmed_witness :
    generateCacheKey "aapl" none = generateCacheKey "AAPL" none :=
  C9_keys_uppercased_not_trimmed.1 "aapl" "AAPL" none (by decide)

/-- Claim C10: a sequential attempt that completes without raising but
yields zero records is neutral for provider health: the loop continues to
the next source with the stats map passed through UNCHANGED (no counter
incremented, no timestamp or message touched), the clock advancing only by
the await itself; concretely, a lone zero-record provider leaves the
initial stats map intact. -/
theorem C10_zero_record_attempt_is_neutral :
    (∀ (scrapers : Scrapers) (symbol src : String)
       (rest attempted : List String) (stats : StatsMap) (now : Nat)
       (behavior : Behavior) (r : DividendCalendarResponse),
       lookupScraper scrapers src = some behavior →
       (behavior symbol).2 = .ok (some r) → r.total_count = 0 →
       trySequentialScraping scrapers symbol (src :: rest) attempted stats
           now =
         trySequentialScraping scrapers symbol rest (attempted ++ [src])
           stats (now + (behavior symbol).1)) ∧
    ((trySequentialScraping zeroScrapers "AAPL" ["yahoo"] []
        defaultScraperStats 0).2.2.1 = defaultScraperStats) := by
  constructor
  · intro scrapers symbol src rest attempted stats now behavior r hl ho hz
    simp [trySequentialScraping, hl, ho, hz]
  · decide

/-- Witness for C10: the one-step equation at the concrete zero-record
provider. -/
theorem C10_zero_record_attempt_is_neutral_witness :
    trySequentialScraping zeroScrapers "AAPL" ("yahoo" :: []) []
        defaultScraperStats 0 =
      trySequentialScraping zeroScrapers "AAPL" [] (["yahoo"])
        defaultScraperStats (0 + 2) :=
  C10_zero_record_attempt_is_neutral.1 zeroScrapers "AAPL" "yahoo" [] []
    defaultScraperStats 0 (fun _ => (2, .ok (some zeroRecordResponse)))
    zeroRecordResponse rfl rfl rfl

end DividendsApi
